import Mathlib

/-!
A shallow embedding of the msl-loadlib bridge (`msl/loadlib/load_library.py`
and `msl/loadlib/server32.py`) together with theorems settling the frozen
claims about its specification.

Modelling conventions:
* Python strings are `String`, machine integers are `Int`/`Nat`.
* The filesystem is a function from path to optional content.
* `pickle` is an external, trusted collaborator: an exchange file is modelled
  as the sequence of values dumped into it, each tagged with the pickle
  protocol number used for the dump; `pickle.load` reads the next value.
* External effects (ctypes loads, .NET assembly loads, warnings logged,
  config-file writes) are recorded in an event trace so that "is called at
  most once" style claims are statable.
-/

namespace Msl

/-! ## String helpers mirroring the Python primitives used by the source -/

/-- Character-list prefix test (used to model the Python `in` operator). -/
def isPrefixOfChars : List Char → List Char → Bool
  | [], _ => true
  | _ :: _, [] => false
  | a :: as, b :: bs => a == b && isPrefixOfChars as bs

/-- Model of the Python substring test `needle in hay` on char lists. -/
def containsChars (needle : List Char) : List Char → Bool
  | [] => needle.isEmpty
  | c :: rest => isPrefixOfChars needle (c :: rest) || containsChars needle rest

/-- Model of the Python substring test `needle in hay` on strings. -/
def strContains (hay needle : String) : Bool :=
  containsChars needle.data hay.data

/-- Split a char list at the first occurrence of `c`; `none` if `c` absent. -/
def splitOnceChar (c : Char) : List Char → Option (List Char × List Char)
  | [] => none
  | x :: xs =>
    if x == c then some ([], xs)
    else
      match splitOnceChar c xs with
      | none => none
      | some (a, b) => some (x :: a, b)

/-- Model of Python `s.split(sep, 2)` with a single-character separator:
at most two splits, so the result has one, two or three parts. -/
def pySplit2 (c : Char) (s : String) : List String :=
  match splitOnceChar c s.data with
  | none => [s]
  | some (a, rest) =>
    match splitOnceChar c rest with
    | none => [⟨a⟩, ⟨rest⟩]
    | some (b, r) => [⟨a⟩, ⟨b⟩, ⟨r⟩]

/-- `pySplitColon2 s` models `s.split(':', 2)` from `RequestHandler.do_GET`. -/
def pySplitColon2 (s : String) : List String := pySplit2 ':' s

/-- Index of the last character satisfying `p`, or `-1` (Python `str.rfind`). -/
def lastIdxAux (p : Char → Bool) : List Char → Nat → Int → Int
  | [], _, acc => acc
  | c :: cs, i, acc => lastIdxAux p cs (i + 1) (if p c then (i : Int) else acc)

/-- Model of Python `str.rfind` restricted to a character predicate. -/
def lastIdx (p : Char → Bool) (cs : List Char) : Int := lastIdxAux p cs 0 (-1)

/-- Model of `os.path.splitext(path)[1] != ''` (CPython `genericpath._splitext`):
the path has an extension iff the last dot comes after the last separator and
the basename is not made of leading dots only up to that dot. -/
def pyHasExt (isWindows : Bool) (path : String) : Bool :=
  let cs := path.data
  let sepIdx := lastIdx (fun c => c == '/' || (isWindows && c == '\\')) cs
  let dotIdx := lastIdx (fun c => c == '.') cs
  if dotIdx > sepIdx then
    (List.range cs.length).any (fun i =>
      decide (sepIdx < (i : Int)) && decide ((i : Int) < dotIdx) &&
        (cs.getD i '.' != '.'))
  else false

/-- Model of Python `int(s)`: strip surrounding whitespace, optional sign,
then a non-empty run of decimal digits. -/
def digitsVal (cs : List Char) : Option Nat :=
  if cs.isEmpty then none
  else
    cs.foldl (fun acc c =>
      acc.bind fun n => if c.isDigit then some (10 * n + (c.toNat - 48)) else none)
      (some 0)

/-- Whitespace as Python `int()` strips it. -/
def isPySpace (c : Char) : Bool :=
  c == ' ' || c == '\t' || c == '\n' || c == '\r'

/-- Strip leading and trailing whitespace from a char list. -/
def stripChars (cs : List Char) : List Char :=
  ((cs.dropWhile isPySpace).reverse.dropWhile isPySpace).reverse

/-- Model of Python `int(s)` returning `none` where Python raises `ValueError`. -/
def pyParseInt (s : String) : Option Int :=
  match stripChars s.data with
  | '-' :: rest => (digitsVal rest).map (fun n => -(n : Int))
  | '+' :: rest => (digitsVal rest).map (fun n => (n : Int))
  | cs => (digitsVal cs).map (fun n => (n : Int))

/-! ## Embedding of `msl/loadlib/load_library.py` -/

/-- Abstraction of the `<python-executable>.config` XML file, capturing exactly
the distinctions `LoadLibrary.check_dot_net_config` makes with ElementTree:
unparseable XML, a root tag other than `configuration`, a parseable file with
no `startup/[@useLegacyV2RuntimeActivationPolicy]` element, or the policy
element present with its boolean value. -/
inductive ConfigFile where
  | invalidXml
  | wrongRoot (tag : String)
  | noPolicy
  | policy (enabled : Bool)
deriving DecidableEq

/-- Outcome of `clr.System.Reflection.Assembly.LoadFile`: success, a
`System.IO.FileLoadException` with its message (the only exception class the
source catches), or any other exception (which the source does not catch). -/
inductive NetLoadResult where
  | ok (asm : Nat)
  | fileLoadException (msg : String)
  | otherException (kind msg : String)
deriving DecidableEq

/-- The environment the loader runs in: the platform flags `IS_WINDOWS` /
`IS_LINUX` / `IS_MAC`, `os.path.abspath`, `os.path.isfile`, the ctypes
loaders (`CDLL`/`WinDLL`/`OleDLL`, keyed by libtype, returning a handle or
the raised error message), pythonnet availability (`import clr` succeeding),
`Assembly.LoadFile`, `GetExportedTypes()[0].Namespace`, `__import__`,
`sys.executable`, and the filesystem view of config files. -/
structure Env where
  isWindows : Bool
  isLinux : Bool
  isMac : Bool
  abspath : String → String
  isfile : String → Bool
  nativeLoad : String → String → Except String Nat
  clrAvailable : Bool
  loadAssembly : String → NetLoadResult
  exportedNamespace : Nat → String
  importModule : String → Nat
  sysExecutable : String
  configFile : String → Option ConfigFile

/-- The exception classes `LoadLibrary.__init__` can raise: `IOError`
(= `OSError`), `TypeError`, or an exception it does not itself raise or catch
that propagates out (e.g. a non-`FileLoadException` from the CLR). -/
inductive LoadError where
  | ioError (msg : String)
  | typeError (msg : String)
  | uncaught (kind msg : String)
deriving DecidableEq

/-- The loaded-library object stored in `self._lib`: a ctypes object for the
three native calling conventions, or the imported .NET module. -/
inductive LibObj where
  | cdll (h : Nat)
  | windll (h : Nat)
  | oledll (h : Nat)
  | netmod (h : Nat)
deriving DecidableEq

/-- The state a fully-constructed `LoadLibrary` instance exposes:
`self._path` (absolute), `self._lib`, and `self._net`. -/
structure LoadedLib where
  path : String
  lib : LibObj
  net : Option Nat
deriving DecidableEq

/-- Externally visible events of one `LoadLibrary` construction. -/
inductive Event where
  | warning (msg : String)
  | nativeLoad (libtype path : String)
  | assemblyLoadFile (path : String)
  | checkConfig (exe : String)
  | configWrite (path : String) (content : ConfigFile)
deriving DecidableEq

def isCheckConfigEv : Event → Bool
  | .checkConfig _ => true
  | _ => false

def isAssemblyLoadEv : Event → Bool
  | .assemblyLoadFile _ => true
  | _ => false

/-- Path-resolution step of `LoadLibrary.__init__` (lines 46-55): append the
platform shared-library extension when the path has none, then take
`os.path.abspath`. -/
def resolveLibPath (env : Env) (path : String) : String :=
  let p :=
    if pyHasExt env.isWindows path then path
    else if env.isWindows then path ++ ".dll"
    else if env.isLinux then path ++ ".so"
    else if env.isMac then path ++ ".dylib"
    else path
  env.abspath p

/-- The warning logged by `LoadLibrary.is_python_net_installed` when
`import clr` fails. -/
def pythonNetMissingMsg : String :=
  "Python for .NET <pythonnet> is not installed. Cannot load a .NET library."

/-- The retry instruction ending both success messages of
`check_dot_net_config`. -/
def tryAgainMsg : String :=
  "Try again to see if Python can now load the .NET library.\n"

/-- The `<startup>` XML block inserted by `check_dot_net_config`
(`NET_FRAMEWORK_FIX` in the source). -/
def netFrameworkFix : String :=
  "\n    <startup useLegacyV2RuntimeActivationPolicy=\"true\">\n        <supportedRuntime version=\"v4.0\" />\n        <supportedRuntime version=\"v2.0.50727\" />\n    </startup>\n"

/-- Result of `LoadLibrary.check_dot_net_config`: the returned
`(status, message)` pair plus the config-file content written, if any. -/
structure ConfigCheckResult where
  status : Int
  msg : String
  write : Option ConfigFile
deriving DecidableEq

/-- The path of the config file adjacent to the hosting executable. -/
def configPath (pyExe : String) : String := pyExe ++ ".config"

/-- Embedding of `LoadLibrary.check_dot_net_config` (lines 165-257). -/
def check_dot_net_config (env : Env) (pyExe : String) : ConfigCheckResult :=
  let cp := configPath pyExe
  match env.configFile cp with
  | some .invalidXml =>
      ⟨-1, "Invalid XML file " ++ cp ++
        "\nCannot create useLegacyV2RuntimeActivationPolicy property.", none⟩
  | some (.wrongRoot tag) =>
      ⟨-1, "The root tag in " ++ cp ++ " is \"" ++ tag ++ "\".\n" ++
        "It must be \"configuration\" in order to create a .NET Framework config file " ++
        "to enable the useLegacyV2RuntimeActivationPolicy property.\n" ++
        "To load an assembly from a .NET Framework version <4.0 the " ++
        "following must be in " ++ cp ++ ":\n" ++
        "<configuration>" ++ netFrameworkFix ++ "</configuration>\n", none⟩
  | some .noPolicy =>
      ⟨1, "Added the useLegacyV2RuntimeActivationPolicy property to " ++ cp ++
        "\n" ++ tryAgainMsg, some (.policy true)⟩
  | some (.policy false) =>
      ⟨-1, "The useLegacyV2RuntimeActivationPolicy in " ++ cp ++ " is False\n" ++
        "Cannot load an assembly from a .NET Framework version <4.0.", none⟩
  | some (.policy true) =>
      ⟨0, "The useLegacyV2RuntimeActivationPolicy property is enabled", none⟩
  | none =>
      ⟨1, "Added the useLegacyV2RuntimeActivationPolicy property to " ++ cp ++
        "\nto fix the \"System.IO.FileLoadException: Mixed mode assembly...\" error.\n" ++
        tryAgainMsg, some (.policy true)⟩

/-- The `except clr.System.IO.FileLoadException` branch of
`LoadLibrary.__init__` (lines 70-88): when the message names the known
"Mixed mode assembly" incompatibility, run `check_dot_net_config` on
`sys.executable` once and raise `IOError` — with the check's message when
its status is nonzero, or with the "still cannot load library" message when
the policy was already enabled; any other `FileLoadException` raises the
"not handled" `IOError`. No branch retries `Assembly.LoadFile`. -/
def mixedModeOutcome (env : Env) (apath m : String) :
    Except LoadError LoadedLib × List Event :=
  if strContains m "Mixed mode assembly" then
    let r := check_dot_net_config env env.sysExecutable
    let evs := [Event.assemblyLoadFile apath, Event.checkConfig env.sysExecutable] ++
      (match r.write with
       | some c => [Event.configWrite (configPath env.sysExecutable) c]
       | Option.none => [])
    if r.status ≠ 0 then
      (.error (.ioError r.msg), evs)
    else
      (.error (.ioError ("Checking .NET config returned \"" ++ r.msg ++
        "\" and still cannot load library.\n" ++ m)), evs)
  else
    (.error (.ioError "The above \"System.IO.FileLoadException\" is not handled.\n"),
     [.assemblyLoadFile apath])

/-- Embedding of `LoadLibrary.__init__` (lines 42-102), returning the
constructed instance or the raised exception, together with the trace of
external events. -/
def loadLibrary (env : Env) (path : String) (libtype : String) :
    Except LoadError LoadedLib × List Event :=
  let apath := resolveLibPath env path
  if ¬ env.isfile apath then
    (.error (.ioError ("Cannot find the shared library " ++ apath ++ "\n")), [])
  else if libtype = "cdll" then
    match env.nativeLoad "cdll" apath with
    | .ok h => (.ok ⟨apath, .cdll h, none⟩, [.nativeLoad "cdll" apath])
    | .error m => (.error (.ioError m), [.nativeLoad "cdll" apath])
  else if libtype = "windll" then
    match env.nativeLoad "windll" apath with
    | .ok h => (.ok ⟨apath, .windll h, none⟩, [.nativeLoad "windll" apath])
    | .error m => (.error (.ioError m), [.nativeLoad "windll" apath])
  else if libtype = "oledll" then
    match env.nativeLoad "oledll" apath with
    | .ok h => (.ok ⟨apath, .oledll h, none⟩, [.nativeLoad "oledll" apath])
    | .error m => (.error (.ioError m), [.nativeLoad "oledll" apath])
  else if libtype = "net" then
    if env.clrAvailable then
      match env.loadAssembly apath with
      | .ok asm =>
          (.ok ⟨apath, .netmod (env.importModule (env.exportedNamespace asm)), some asm⟩,
           [.assemblyLoadFile apath])
      | .fileLoadException m => mixedModeOutcome env apath m
      | .otherException k m => (.error (.uncaught k m), [.assemblyLoadFile apath])
    else
      (.error (.typeError ("Invalid library type: " ++ libtype)),
       [.warning pythonNetMissingMsg])
  else
    (.error (.typeError ("Invalid library type: " ++ libtype)), [])

/-! ## Embedding of `msl/loadlib/server32.py` -/

/-- A picklable Python value. `dict` keys are restricted to strings (the shape
used for keyword arguments); arbitrary values nest through the other
constructors. -/
inductive PyObj where
  | none
  | bool (b : Bool)
  | int (n : Int)
  | float (q : Int × Int)
  | str (s : String)
  | tuple (xs : List PyObj)
  | list (xs : List PyObj)
  | dict (kvs : List (String × PyObj))

/-- One entry of `traceback.extract_tb`: (filename, line number, function
name, source text — empty when unavailable). -/
structure Frame where
  file : String
  line : Nat
  func : String
  text : String
deriving DecidableEq

/-- A raised Python exception as the handler's `except` block sees it:
`exc_type.__name__`, `str(exc_value)`, and the traceback frames strictly
below the handler's own `do_GET` frame, outermost first (`extract_tb`
order). Failures raised by builtins directly inside `do_GET` have an empty
`userTb`. -/
structure PyError where
  kind : String
  msg : String
  userTb : List Frame

/-- The dispatch frame itself: the first entry of `extract_tb` for every
exception caught in `do_GET`. Its line number and source text depend on the
failing statement and are abstracted to fixed values; no claim depends on
them. -/
def doGetFrame : Frame := ⟨"server32.py", 172, "do_GET", ""⟩

/-- Representative frame for failures raised inside the `pickle` module
(`pickle.load` on a truncated file), which contribute their own traceback
entries below `do_GET`. -/
def pickleFrame : Frame := ⟨"pickle.py", 1314, "load", ""⟩

/-- `tb_list = traceback.extract_tb(exc_traceback)`: the `do_GET` frame
followed by the frames of the failing call. -/
def tracebackList (e : PyError) : List Frame := doGetFrame :: e.userTb

/-- `tb_list[min(len(tb_list)-1, 1)]` (server32.py line 187): the frame the
handler reports, intended to be "the Server32 subclass exception". -/
def selectedFrame (e : PyError) : Frame :=
  (tracebackList e).getD (min ((tracebackList e).length - 1) 1) doGetFrame

/-- The `File "...", line ..., in ...` part of the failure body
(server32.py lines 189-191). -/
def locationText (fr : Frame) : String :=
  let m1 := "\n  File \"" ++ fr.file ++ "\", line " ++ toString fr.line ++ ", in " ++ fr.func
  if fr.text ≠ "" then m1 ++ "\n    " ++ fr.text else m1

/-- The complete plain-text body written by the failure branch of `do_GET`
(lines 185-194). -/
def formatTb (e : PyError) : String :=
  locationText (selectedFrame e) ++ "\n" ++ e.kind ++ ": " ++ e.msg

/-- What the handler sends back over HTTP: nothing at all (the shutdown
branch returns before any send), status 200 with empty body, or status 501
with a `text/plain` body. -/
inductive HTTPResp where
  | noResponse
  | ok
  | err (body : String)
deriving DecidableEq

/-- The HTTP status code sent, if any. -/
def HTTPResp.statusOf : HTTPResp → Option Nat
  | .noResponse => Option.none
  | .ok => some 200
  | .err _ => some 501

/-- The response body bytes sent. -/
def HTTPResp.bodyOf : HTTPResp → String
  | .err b => b
  | _ => ""

/-- The filesystem of exchange files: a file is a sequence of pickled
values, each recorded with the pickle protocol used for its dump; `none`
means the file does not exist. -/
def FS : Type := String → Option (List (Int × PyObj))

/-- Overwrite (`open(..., 'wb')` then dumps) one file. -/
def updateFS (fs : FS) (name : String) (content : List (Int × PyObj)) : FS :=
  fun s => if s = name then some content else fs s

/-- A running `Server32` (sub)instance as `RequestHandler` sees it through
`self.server`: the `LoadLibrary` instance constructed in `Server32.__init__`,
the methods reachable via `getattr` (the subclass's user-defined methods),
and the stored `quiet` flag. -/
structure Server where
  library : LoadedLib
  methods : String → Option (PyObj → PyObj → Except PyError PyObj)
  quiet : Bool

/-- `Server32.path` (lines 81-87): the absolute path to the loaded library. -/
def Server.path (s : Server) : String := s.library.path

/-- Exceptions raised by builtins directly inside `do_GET`. -/
def fileNotFoundErr (file : String) : PyError :=
  ⟨"FileNotFoundError", "No such file or directory: " ++ file, []⟩

def eofErr : PyError := ⟨"EOFError", "Ran out of input", [pickleFrame]⟩

def attributeErr (method : String) : PyError :=
  ⟨"AttributeError", "Server32 object has no attribute " ++ method, []⟩

def unpackErr (got : Nat) : PyError :=
  ⟨"ValueError", "not enough values to unpack (expected 3, got " ++ toString got ++ ")", []⟩

def intParseErr (s : String) : PyError :=
  ⟨"ValueError", "invalid literal for int() with base 10: " ++ s, []⟩

/-- The outcome of one `do_GET` call: what was sent on the HTTP connection,
the resulting exchange filesystem, and whether a thread running
`self.server.shutdown` was started (`threading.Thread(...).start()`, line
161). `do_GET` itself never runs the shutdown. -/
structure DoGetOut where
  resp : HTTPResp
  fs : FS
  shutdownThreadStarted : Bool

/-- The `response =` computation of the `try` block (lines 166-172): serve
`LIB32_PATH` from `self.server.path` without touching the exchange file;
otherwise open the exchange file, `pickle.load` the positional and keyword
argument records, and invoke `getattr(self.server, method)`. -/
def computeResponse (srv : Server) (fs : FS) (method pickleTempFile : String) :
    Except PyError PyObj :=
  if method = "LIB32_PATH" then .ok (.str srv.path)
  else
    match fs pickleTempFile with
    | Option.none => .error (fileNotFoundErr pickleTempFile)
    | some values =>
      match values with
      | (_, a) :: (_, k) :: _ =>
        match srv.methods method with
        | Option.none => .error (attributeErr method)
        | some f => f a k
      | _ => .error eofErr

/-- Embedding of `RequestHandler.do_GET` (server32.py lines 155-194).
`reqPath` is the raw HTTP request path (`self.path`), whose leading slash is
stripped. The `try` block first computes `response` (see `computeResponse`),
then reopens the exchange file for writing — truncating it — and dumps the
response with `protocol=int(pickle_protocol)`; the `int()` conversion
happens after the truncating open, so a bad protocol string leaves the file
truncated. Any exception is caught and turned into the 501 plain-text
body. -/
def do_GET (srv : Server) (fs : FS) (reqPath : String) : DoGetOut :=
  if reqPath.drop 1 = "SHUTDOWN_SERVER" then
    ⟨.noResponse, fs, true⟩
  else
    match pySplitColon2 (reqPath.drop 1) with
    | [method, pickleProtocol, pickleTempFile] =>
      match computeResponse srv fs method pickleTempFile with
      | .ok response =>
        match pyParseInt pickleProtocol with
        | some n => ⟨.ok, updateFS fs pickleTempFile [(n, response)], false⟩
        | Option.none =>
            ⟨.err (formatTb (intParseErr pickleProtocol)),
             updateFS fs pickleTempFile [], false⟩
      | .error e => ⟨.err (formatTb e), fs, false⟩
    | parts => ⟨.err (formatTb (unpackErr parts.length)), fs, false⟩

/-- Embedding of `RequestHandler.log_message` (lines 196-202): the override
is `pass`, so no log line is ever emitted to stdout, for every server state
and every message. -/
def RequestHandler.log_message (srv : Server) (fmt : String) (args : List String) :
    Option String :=
  let _ := srv
  let _ := fmt
  let _ := args
  Option.none

/-- Embedding of `Server32.__init__` (lines 76-79): store `quiet`, construct
the `LoadLibrary`; a loader failure propagates out of the constructor, so no
`Server` value exists. The subclass's methods are a parameter (the excluded
wrapper classes supply them). -/
def Server32.init (env : Env) (path libtype : String) (quiet : Bool)
    (methods : String → Option (PyObj → PyObj → Except PyError PyObj)) :
    Except LoadError Server × List Event :=
  match loadLibrary env path libtype with
  | (.ok ll, evs) => (.ok ⟨ll, methods, quiet⟩, evs)
  | (.error e, evs) => (.error e, evs)

/-- Steps of the server launcher. -/
inductive LaunchEvent where
  | constructed
  | listening
deriving DecidableEq

/-- Modelled from the spec: the launcher (the frozen server executable's main
script, which is not under `src/`) constructs the `Server32` subclass
synchronously and only after a successful construction enters the
request-accept loop (`serve_forever`); a constructor failure propagates to
the launcher and the loop is never entered. -/
def launchServer (env : Env) (path libtype : String) (quiet : Bool)
    (methods : String → Option (PyObj → PyObj → Except PyError PyObj)) :
    Except LoadError Server × List LaunchEvent :=
  match Server32.init env path libtype quiet methods with
  | (.ok s, _) => (.ok s, [.constructed, .listening])
  | (.error e, _) => (.error e, [])

/-- Modelled from the spec: the echo method (`send_data` of the Dummy
example server, whose module is not under `src/`) returns exactly the
`(args, kwargs)` pair it received. -/
def echoFn : PyObj → PyObj → Except PyError PyObj :=
  fun a k => .ok (.tuple [a, k])

/-! ## Theorems settling the claims -/

/-- Helper: a request that splits into three colon-separated parts is not the
shutdown sentinel (the sentinel contains no colon). -/
theorem split3_ne_shutdown {s m p f : String}
    (h : pySplitColon2 s = [m, p, f]) : s ≠ "SHUTDOWN_SERVER" := by
  intro hs
  rw [hs] at h
  have h1 : pySplitColon2 "SHUTDOWN_SERVER" = ["SHUTDOWN_SERVER"] := by decide
  rw [h1] at h
  simp at h

/-- Helper: the dispatch outcome for a request splitting as `[m, p, f]`,
where the response computation succeeds and the protocol parses. -/
theorem do_GET_ok {srv : Server} {fs : FS} {req m ps file : String} {n : Int}
    {r : PyObj}
    (hsplit : pySplitColon2 (req.drop 1) = [m, ps, file])
    (hres : computeResponse srv fs m file = .ok r)
    (hn : pyParseInt ps = some n) :
    do_GET srv fs req = ⟨.ok, updateFS fs file [(n, r)], false⟩ := by
  unfold do_GET
  rw [if_neg (split3_ne_shutdown hsplit), hsplit]
  dsimp only
  rw [hres, hn]

/-- Helper: the dispatch outcome when the response computation fails. -/
theorem do_GET_err {srv : Server} {fs : FS} {req m ps file : String}
    {e : PyError}
    (hsplit : pySplitColon2 (req.drop 1) = [m, ps, file])
    (hres : computeResponse srv fs m file = .error e) :
    do_GET srv fs req = ⟨.err (formatTb e), fs, false⟩ := by
  unfold do_GET
  rw [if_neg (split3_ne_shutdown hsplit), hsplit]
  dsimp only
  rw [hres]

/-- C1: a request naming a non-reserved method deserializes exactly the
(positional, named) argument pair from the exchange file, invokes the named
method with those arguments, and writes the return value back to the same
exchange file with the protocol carried in the request; with an echo method
the written payload is exactly the original pair. -/
theorem c1_dispatch_round_trip (srv : Server) (fs : FS)
    (req m ps file : String) (n p0 p1 : Int) (aV kV r : PyObj)
    (rest : List (Int × PyObj)) (f : PyObj → PyObj → Except PyError PyObj)
    (hsplit : pySplitColon2 (req.drop 1) = [m, ps, file])
    (hm : m ≠ "LIB32_PATH")
    (hn : pyParseInt ps = some n)
    (hfs : fs file = some ((p0, aV) :: (p1, kV) :: rest))
    (hf : srv.methods m = some f)
    (hr : f aV kV = .ok r) :
    do_GET srv fs req = ⟨.ok, updateFS fs file [(n, r)], false⟩ ∧
    (f = echoFn →
      updateFS fs file [(n, r)] file = some [(n, PyObj.tuple [aV, kV])]) := by
  have hres : computeResponse srv fs m file = .ok r := by
    unfold computeResponse
    rw [if_neg hm, hfs]
    dsimp only
    rw [hf]
    exact hr
  refine ⟨do_GET_ok hsplit hres hn, ?_⟩
  intro he
  subst he
  simp only [echoFn, Except.ok.injEq] at hr
  subst hr
  simp [updateFS]

/-- Closed witness for `c1_dispatch_round_trip`. -/
theorem c1_dispatch_round_trip_witness :
    do_GET ⟨⟨"/abs/lib.so", .cdll 7, Option.none⟩,
        (fun m => if m = "send_data" then some echoFn else Option.none), true⟩
      (fun s => if s = "tmp" then
          some [(2, PyObj.tuple [PyObj.int 5]), (2, PyObj.dict [])]
        else Option.none)
      "/send_data:2:tmp" =
      ⟨.ok,
       updateFS (fun s => if s = "tmp" then
          some [(2, PyObj.tuple [PyObj.int 5]), (2, PyObj.dict [])]
        else Option.none) "tmp"
        [(2, PyObj.tuple [PyObj.tuple [PyObj.int 5], PyObj.dict []])], false⟩ :=
  (c1_dispatch_round_trip _ _ "/send_data:2:tmp" "send_data" "2" "tmp" 2 2 2
    (PyObj.tuple [PyObj.int 5]) (PyObj.dict [])
    (PyObj.tuple [PyObj.tuple [PyObj.int 5], PyObj.dict []]) [] echoFn
    (by decide) (by decide) (by decide) rfl rfl rfl).1

/-- C3: dispatching the shutdown sentinel never invokes user code (the
outcome is the same for any method table), never runs the shutdown on the
request-handling control path (the handler returns at once), and starts the
graceful shutdown on a separate spawned thread. -/
theorem c3_shutdown_spawns_thread (srv : Server) (fs : FS) :
    do_GET srv fs "/SHUTDOWN_SERVER" = ⟨.noResponse, fs, true⟩ ∧
    (∀ m₁ m₂ : String → Option (PyObj → PyObj → Except PyError PyObj),
      do_GET { srv with methods := m₁ } fs "/SHUTDOWN_SERVER" =
        do_GET { srv with methods := m₂ } fs "/SHUTDOWN_SERVER") := by
  constructor
  · unfold do_GET
    rw [if_pos (by decide)]
  · intro m₁ m₂
    unfold do_GET
    rw [if_pos (by decide), if_pos (by decide)]

/-- C10: the shutdown-sentinel request sends no status line, headers or body
and neither reads nor writes any exchange file (the outcome is constant in
the filesystem and returns it unchanged); every non-shutdown request does
send a response. -/
theorem c10_shutdown_frame (srv : Server) (fs : FS) (req : String) :
    (req.drop 1 = "SHUTDOWN_SERVER" →
      do_GET srv fs req = ⟨.noResponse, fs, true⟩ ∧
      (do_GET srv fs req).resp.statusOf = Option.none ∧
      (do_GET srv fs req).resp.bodyOf = "") ∧
    (req.drop 1 ≠ "SHUTDOWN_SERVER" →
      (do_GET srv fs req).resp ≠ HTTPResp.noResponse) := by
  constructor
  · intro h
    have hrw : do_GET srv fs req = ⟨.noResponse, fs, true⟩ := by
      unfold do_GET
      rw [if_pos h]
    exact ⟨hrw, by rw [hrw]; rfl, by rw [hrw]; rfl⟩
  · intro h
    unfold do_GET
    rw [if_neg h]
    split
    · split
      · split <;> simp
      · simp
    · simp

/-- Closed witness for `c10_shutdown_frame`. -/
theorem c10_shutdown_frame_witness :
    (do_GET ⟨⟨"/abs/lib.so", .cdll 7, Option.none⟩, (fun _ => Option.none), true⟩
        (fun _ => Option.none) "/SHUTDOWN_SERVER" =
      ⟨.noResponse, (fun _ => Option.none), true⟩ ∧
      (do_GET ⟨⟨"/abs/lib.so", .cdll 7, Option.none⟩, (fun _ => Option.none), true⟩
        (fun _ => Option.none) "/SHUTDOWN_SERVER").resp.statusOf = Option.none ∧
      (do_GET ⟨⟨"/abs/lib.so", .cdll 7, Option.none⟩, (fun _ => Option.none), true⟩
        (fun _ => Option.none) "/SHUTDOWN_SERVER").resp.bodyOf = "") ∧
    (do_GET ⟨⟨"/abs/lib.so", .cdll 7, Option.none⟩, (fun _ => Option.none), true⟩
        (fun _ => Option.none) "/LIB32_PATH:2:tmp").resp ≠ HTTPResp.noResponse :=
  ⟨(c10_shutdown_frame _ _ "/SHUTDOWN_SERVER").1 (by decide),
   (c10_shutdown_frame _ _ "/LIB32_PATH:2:tmp").2 (by decide)⟩

/-- A helper lemma: a successfully constructed `LoadLibrary` exposes exactly
the resolved absolute path. -/
theorem loadLibrary_ok_path {env : Env} {p lt : String} {ll : LoadedLib}
    {evs : List Event} (h : loadLibrary env p lt = (.ok ll, evs)) :
    ll.path = resolveLibPath env p := by
  simp only [loadLibrary, mixedModeOutcome] at h
  repeat' split at h
  all_goals simp only [Prod.mk.injEq, Except.ok.injEq, Except.error.injEq,
    reduceCtorEq, false_and] at h
  all_goals first
    | exact absurd h not_false
    | (obtain ⟨h1, h2⟩ := h; subst h1; rfl)

/-- Concrete deep-failure data: a user method whose failing call stack is two
frames deep (`send_data` calling a helper that raises). -/
def frameOuterEx : Frame := ⟨"dummy32.py", 10, "send_data", "return helper()"⟩

def frameInnerEx : Frame := ⟨"helpers.py", 99, "helper", "return 1 / 0"⟩

def errDeepEx : PyError :=
  ⟨"ZeroDivisionError", "division by zero", [frameOuterEx, frameInnerEx]⟩

def boomFn : PyObj → PyObj → Except PyError PyObj :=
  fun _ _ => .error errDeepEx

def srvBoom : Server :=
  ⟨⟨"/abs/lib.so", .cdll 7, Option.none⟩,
   (fun m => if m = "boom" then some boomFn else Option.none), true⟩

def fsBoom : FS :=
  fun s => if s = "tmp" then
    some [(2, PyObj.tuple []), (2, PyObj.dict [])]
  else Option.none

/-- C2 counterexample: for a user failure whose call stack under the
dispatch frame is two frames deep, the 501 body reports the outermost user
frame (`dummy32.py`), not the innermost one (`helpers.py`): the innermost
frame's file never appears in the body. -/
theorem c2_innermost_frame_counterexample :
    (do_GET srvBoom fsBoom "/boom:2:tmp").resp.statusOf = some 501 ∧
    strContains ((do_GET srvBoom fsBoom "/boom:2:tmp").resp.bodyOf) "dummy32.py" = true ∧
    strContains ((do_GET srvBoom fsBoom "/boom:2:tmp").resp.bodyOf) "helpers.py" = false ∧
    errDeepEx.userTb.getLastD doGetFrame = frameInnerEx ∧
    frameInnerEx.file = "helpers.py" := by
  refine ⟨rfl, by decide, by decide, rfl, rfl⟩

/-- C2 (amended): any failure of the response computation — a missing
exchange file, a truncated payload, an absent method, or a failing user
invocation — yields a 501 (non-2xx) plain-text response whose body carries
the exception kind, the message, and the source location of the frame at
index `min(len-1, 1)` of the traceback: the *first* frame inside
user/library code (the dispatch frame is skipped whenever a deeper frame
exists, and is itself reported otherwise), not the innermost one; the
failure is caught and converted, never propagated. The final conjuncts pin
down the exception each deserialization-failure source produces. -/
theorem c2_failure_response_amended (srv : Server) (fs : FS)
    (req m ps file : String) (e : PyError)
    (hsplit : pySplitColon2 (req.drop 1) = [m, ps, file])
    (hres : computeResponse srv fs m file = .error e) :
    do_GET srv fs req = ⟨.err (formatTb e), fs, false⟩ ∧
    (do_GET srv fs req).resp.statusOf = some 501 ∧
    formatTb e = locationText (selectedFrame e) ++ "\n" ++ e.kind ++ ": " ++ e.msg ∧
    (e.userTb ≠ [] → selectedFrame e = e.userTb.headD doGetFrame) ∧
    (e.userTb = [] → selectedFrame e = doGetFrame) ∧
    (m ≠ "LIB32_PATH" → fs file = Option.none → e = fileNotFoundErr file) ∧
    (m ≠ "LIB32_PATH" → fs file = some [] → e = eofErr) ∧
    (∀ (p0 : Int) (aV : PyObj), m ≠ "LIB32_PATH" →
      fs file = some [(p0, aV)] → e = eofErr) ∧
    (∀ (p0 p1 : Int) (aV kV : PyObj) (rest : List (Int × PyObj)),
      m ≠ "LIB32_PATH" → fs file = some ((p0, aV) :: (p1, kV) :: rest) →
      srv.methods m = Option.none → e = attributeErr m) ∧
    (∀ (p0 p1 : Int) (aV kV : PyObj) (rest : List (Int × PyObj))
        (f : PyObj → PyObj → Except PyError PyObj),
      m ≠ "LIB32_PATH" → fs file = some ((p0, aV) :: (p1, kV) :: rest) →
      srv.methods m = some f → f aV kV = .error e) := by
  have hrw := do_GET_err hsplit hres
  refine ⟨hrw, by rw [hrw]; rfl, rfl, ?_, ?_, ?_, ?_, ?_, ?_, ?_⟩
  · intro hne
    rcases e with ⟨k, mg, tb⟩
    cases tb with
    | nil => exact absurd rfl hne
    | cons a t =>
        simp only [selectedFrame, tracebackList, List.length_cons, List.headD]
        have h1 : min (t.length + 1 + 1 - 1) 1 = 1 := by omega
        rw [h1]
        rfl
  · intro hnil
    rcases e with ⟨k, mg, tb⟩
    dsimp only at hnil
    subst hnil
    rfl
  · intro hm hnone
    simp [computeResponse, hm, hnone] at hres
    exact hres.symm
  · intro hm hempty
    simp [computeResponse, hm, hempty] at hres
    exact hres.symm
  · intro p0 aV hm hone
    simp [computeResponse, hm, hone] at hres
    exact hres.symm
  · intro p0 p1 aV kV rest hm hfs hnone
    simp [computeResponse, hm, hfs, hnone] at hres
    exact hres.symm
  · intro p0 p1 aV kV rest f hm hfs hf
    simp [computeResponse, hm, hfs, hf] at hres
    exact hres

/-- Closed witness for `c2_failure_response_amended`, exercising a
deserialization failure: the exchange file named by the request does not
exist, so the reported exception is the `FileNotFoundError` located at the
dispatch frame itself. -/
theorem c2_failure_response_amended_witness :
    computeResponse srvBoom fsBoom "boom" "nofile" =
      .error (fileNotFoundErr "nofile") ∧
    (do_GET srvBoom fsBoom "/boom:2:nofile" =
        ⟨.err (formatTb (fileNotFoundErr "nofile")), fsBoom, false⟩ ∧
      (do_GET srvBoom fsBoom "/boom:2:nofile").resp.statusOf = some 501 ∧
      formatTb (fileNotFoundErr "nofile") =
        locationText (selectedFrame (fileNotFoundErr "nofile")) ++ "\n" ++
          (fileNotFoundErr "nofile").kind ++ ": " ++ (fileNotFoundErr "nofile").msg ∧
      ((fileNotFoundErr "nofile").userTb ≠ [] →
        selectedFrame (fileNotFoundErr "nofile") =
          (fileNotFoundErr "nofile").userTb.headD doGetFrame) ∧
      ((fileNotFoundErr "nofile").userTb = [] →
        selectedFrame (fileNotFoundErr "nofile") = doGetFrame) ∧
      ("boom" ≠ "LIB32_PATH" → fsBoom "nofile" = Option.none →
        fileNotFoundErr "nofile" = fileNotFoundErr "nofile") ∧
      ("boom" ≠ "LIB32_PATH" → fsBoom "nofile" = some [] →
        fileNotFoundErr "nofile" = eofErr) ∧
      (∀ (p0 : Int) (aV : PyObj), "boom" ≠ "LIB32_PATH" →
        fsBoom "nofile" = some [(p0, aV)] → fileNotFoundErr "nofile" = eofErr) ∧
      (∀ (p0 p1 : Int) (aV kV : PyObj) (rest : List (Int × PyObj)),
        "boom" ≠ "LIB32_PATH" → fsBoom "nofile" = some ((p0, aV) :: (p1, kV) :: rest) →
        srvBoom.methods "boom" = Option.none →
        fileNotFoundErr "nofile" = attributeErr "boom") ∧
      (∀ (p0 p1 : Int) (aV kV : PyObj) (rest : List (Int × PyObj))
          (f : PyObj → PyObj → Except PyError PyObj),
        "boom" ≠ "LIB32_PATH" → fsBoom "nofile" = some ((p0, aV) :: (p1, kV) :: rest) →
        srvBoom.methods "boom" = some f →
        f aV kV = .error (fileNotFoundErr "nofile"))) :=
  ⟨rfl,
   c2_failure_response_amended srvBoom fsBoom "/boom:2:nofile" "boom" "2" "nofile"
     (fileNotFoundErr "nofile") (by decide) rfl⟩

/-- C5: a `LIB32_PATH` request of a server built by `Server32.__init__`
answers 200 and writes the loaded library's resolved absolute path — the
absolute resolution of the path supplied at spawn time — into the exchange
file, and the outcome is independent of the user-method table (no exported
function is invoked). -/
theorem c5_lib32_path_query (env : Env) (spawnPath libtype : String)
    (quiet : Bool)
    (methods : String → Option (PyObj → PyObj → Except PyError PyObj))
    (srv : Server) (evs : List Event) (fs : FS) (req ps file : String)
    (n : Int)
    (hinit : Server32.init env spawnPath libtype quiet methods = (.ok srv, evs))
    (hsplit : pySplitColon2 (req.drop 1) = ["LIB32_PATH", ps, file])
    (hn : pyParseInt ps = some n) :
    do_GET srv fs req =
      ⟨.ok, updateFS fs file [(n, PyObj.str (resolveLibPath env spawnPath))], false⟩ ∧
    (∀ m' : String → Option (PyObj → PyObj → Except PyError PyObj),
      do_GET { srv with methods := m' } fs req = do_GET srv fs req) := by
  have hpath : srv.path = resolveLibPath env spawnPath := by
    unfold Server32.init at hinit
    split at hinit
    next ll evs' hload =>
      have h1 := loadLibrary_ok_path hload
      simp only [Prod.mk.injEq, Except.ok.injEq] at hinit
      rcases hinit with ⟨h2, _⟩
      rw [← h2]
      exact h1
    next e evs' hload =>
      simp at hinit
  have hres : computeResponse srv fs "LIB32_PATH" file = .ok (.str srv.path) := by
    unfold computeResponse
    rw [if_pos rfl]
  have hres' : ∀ m', computeResponse { srv with methods := m' } fs "LIB32_PATH" file =
      .ok (.str srv.path) := by
    intro m'
    unfold computeResponse
    rw [if_pos rfl]
    rfl
  constructor
  · rw [do_GET_ok hsplit hres hn, hpath]
  · intro m'
    rw [do_GET_ok hsplit (hres' m') hn, do_GET_ok hsplit hres hn]

/-- A concrete Linux environment for witnesses: exactly one library file
`/abs/lib.so` exists and opens with ctypes handle 7; pythonnet is absent. -/
def envLinux : Env :=
  { isWindows := false
    isLinux := true
    isMac := false
    abspath := fun s => "/abs/" ++ s
    isfile := fun s => s == "/abs/lib.so"
    nativeLoad := fun _ p => if p == "/abs/lib.so" then .ok 7 else .error "cannot open"
    clrAvailable := false
    loadAssembly := fun _ => .otherException "RuntimeError" "no clr"
    exportedNamespace := fun _ => "LibNS"
    importModule := fun _ => 0
    sysExecutable := "/usr/bin/python"
    configFile := fun _ => Option.none }

/-- Closed witness for `c5_lib32_path_query`. -/
theorem c5_lib32_path_query_witness :
    Server32.init envLinux "lib" "cdll" true (fun _ => Option.none) =
      (.ok ⟨⟨"/abs/lib.so", .cdll 7, Option.none⟩, (fun _ => Option.none), true⟩,
       [.nativeLoad "cdll" "/abs/lib.so"]) ∧
    (do_GET ⟨⟨"/abs/lib.so", .cdll 7, Option.none⟩, (fun _ => Option.none), true⟩
        fsBoom "/LIB32_PATH:2:tmp" =
      ⟨.ok, updateFS fsBoom "tmp" [(2, PyObj.str (resolveLibPath envLinux "lib"))], false⟩ ∧
    (∀ m' : String → Option (PyObj → PyObj → Except PyError PyObj),
      do_GET { (⟨⟨"/abs/lib.so", .cdll 7, Option.none⟩, (fun _ => Option.none), true⟩ : Server)
          with methods := m' } fsBoom "/LIB32_PATH:2:tmp" =
        do_GET ⟨⟨"/abs/lib.so", .cdll 7, Option.none⟩, (fun _ => Option.none), true⟩
          fsBoom "/LIB32_PATH:2:tmp")) :=
  ⟨rfl,
   c5_lib32_path_query envLinux "lib" "cdll" true (fun _ => Option.none) _ _
     fsBoom "/LIB32_PATH:2:tmp" "2" "tmp" 2 rfl (by decide) rfl⟩

/-- A server whose spawner requested verbosity (`quiet = false`). -/
def serverLoud : Server :=
  ⟨⟨"/abs/lib.so", .cdll 7, Option.none⟩, (fun _ => Option.none), false⟩

/-- C9 counterexample: with `quiet = false` — verbosity explicitly
requested — the request handler still emits no log line, because the
`log_message` override is unconditionally `pass`; so "suppressed exactly
when quiet is true" fails at this input. -/
theorem c9_logging_counterexample :
    ¬ ((RequestHandler.log_message serverLoud "GET /x HTTP/1.1" [] ≠ Option.none) ↔
        serverLoud.quiet = false) := by
  simp [RequestHandler.log_message, serverLoud]

/-- C9 (amended): request logging is suppressed unconditionally — the
handler emits no log line for any server state and message — and the quiet
flag never affects the dispatch outcome: two servers differing only in
`quiet` produce identical response status, body and exchange-file
contents. -/
theorem c9_quiet_protocol_independent_amended (srv : Server) (fs : FS)
    (req fmt : String) (args : List String) :
    (∀ q₁ q₂ : Bool,
      do_GET { srv with quiet := q₁ } fs req = do_GET { srv with quiet := q₂ } fs req) ∧
    RequestHandler.log_message srv fmt args = Option.none := by
  refine ⟨fun q₁ q₂ => ?_, rfl⟩
  cases srv
  rfl

/-- C4: path resolution appends the platform shared-library extension
exactly when the path has none and then resolves to an absolute path; when
the resolved path names an existing file, loading with a valid
calling-convention kind (whose underlying loader accepts the image) succeeds
and the handle's exposed path is the resolved absolute path; when it does
not, loading fails with the `IOError` carrying the resolved path, and no
handle is constructed. -/
theorem c4_load_path_resolution (env : Env) (path libtype : String) :
    (pyHasExt env.isWindows path = true →
      resolveLibPath env path = env.abspath path) ∧
    (pyHasExt env.isWindows path = false →
      (env.isWindows = true → resolveLibPath env path = env.abspath (path ++ ".dll")) ∧
      (env.isWindows = false → env.isLinux = true →
        resolveLibPath env path = env.abspath (path ++ ".so")) ∧
      (env.isWindows = false → env.isLinux = false → env.isMac = true →
        resolveLibPath env path = env.abspath (path ++ ".dylib"))) ∧
    (env.isfile (resolveLibPath env path) = false →
      loadLibrary env path libtype =
        (.error (.ioError ("Cannot find the shared library " ++
          resolveLibPath env path ++ "\n")), [])) ∧
    (env.isfile (resolveLibPath env path) = true →
      (∀ h : Nat, libtype = "cdll" →
        env.nativeLoad "cdll" (resolveLibPath env path) = .ok h →
        loadLibrary env path libtype =
          (.ok ⟨resolveLibPath env path, .cdll h, Option.none⟩,
           [.nativeLoad "cdll" (resolveLibPath env path)])) ∧
      (∀ h : Nat, libtype = "windll" →
        env.nativeLoad "windll" (resolveLibPath env path) = .ok h →
        loadLibrary env path libtype =
          (.ok ⟨resolveLibPath env path, .windll h, Option.none⟩,
           [.nativeLoad "windll" (resolveLibPath env path)])) ∧
      (∀ h : Nat, libtype = "oledll" →
        env.nativeLoad "oledll" (resolveLibPath env path) = .ok h →
        loadLibrary env path libtype =
          (.ok ⟨resolveLibPath env path, .oledll h, Option.none⟩,
           [.nativeLoad "oledll" (resolveLibPath env path)])) ∧
      (∀ asm : Nat, libtype = "net" → env.clrAvailable = true →
        env.loadAssembly (resolveLibPath env path) = .ok asm →
        loadLibrary env path libtype =
          (.ok ⟨resolveLibPath env path,
              .netmod (env.importModule (env.exportedNamespace asm)), some asm⟩,
           [.assemblyLoadFile (resolveLibPath env path)]))) ∧
    (∀ (ll : LoadedLib) (evs : List Event),
      loadLibrary env path libtype = (.ok ll, evs) →
      ll.path = resolveLibPath env path) := by
  refine ⟨fun hext => ?_, fun hext => ⟨fun hw => ?_, fun hw hl => ?_, fun hw hl hm => ?_⟩,
    fun hmiss => ?_, fun hfile => ⟨?_, ?_, ?_, ?_⟩, fun ll evs h => loadLibrary_ok_path h⟩
  · simp [resolveLibPath, hext]
  · rw [hw] at hext
    simp [resolveLibPath, hext, hw]
  · rw [hw] at hext
    simp [resolveLibPath, hext, hw, hl]
  · rw [hw] at hext
    simp [resolveLibPath, hext, hw, hl, hm]
  · simp [loadLibrary, hmiss]
  · intro h hlt hload
    subst hlt
    simp [loadLibrary, hfile, hload]
  · intro h hlt hload
    subst hlt
    simp [loadLibrary, hfile, hload]
  · intro h hlt hload
    subst hlt
    simp [loadLibrary, hfile, hload]
  · intro asm hlt hclr hload
    subst hlt
    simp [loadLibrary, hfile, hclr, hload]

/-- Closed witness for `c4_load_path_resolution`. -/
theorem c4_load_path_resolution_witness :
    (envLinux.isfile (resolveLibPath envLinux "lib") = true ∧
      loadLibrary envLinux "lib" "cdll" =
        (.ok ⟨resolveLibPath envLinux "lib", .cdll 7, Option.none⟩,
         [.nativeLoad "cdll" (resolveLibPath envLinux "lib")])) ∧
    (envLinux.isfile (resolveLibPath envLinux "missing") = false ∧
      loadLibrary envLinux "missing" "cdll" =
        (.error (.ioError ("Cannot find the shared library " ++
          resolveLibPath envLinux "missing" ++ "\n")), [])) :=
  ⟨⟨rfl, ((c4_load_path_resolution envLinux "lib" "cdll").2.2.2.1 rfl).1 7 rfl rfl⟩,
   ⟨rfl, (c4_load_path_resolution envLinux "missing" "cdll").2.2.1 rfl⟩⟩

/-- C6: when the `LoadLibrary` construction performed inside
`Server32.__init__` fails, the constructor propagates exactly that failure,
no `Server` value exists, and the launcher never enters the request-accept
loop — no request is ever dispatched by that instance. -/
theorem c6_constructor_failure_no_server (env : Env) (path libtype : String)
    (quiet : Bool)
    (methods : String → Option (PyObj → PyObj → Except PyError PyObj))
    (e : LoadError) (evs : List Event)
    (hfail : loadLibrary env path libtype = (.error e, evs)) :
    Server32.init env path libtype quiet methods = (.error e, evs) ∧
    launchServer env path libtype quiet methods = (.error e, []) ∧
    LaunchEvent.listening ∉ (launchServer env path libtype quiet methods).2 := by
  have h1 : Server32.init env path libtype quiet methods = (.error e, evs) := by
    unfold Server32.init
    rw [hfail]
  have h2 : launchServer env path libtype quiet methods = (.error e, []) := by
    unfold launchServer
    rw [h1]
  exact ⟨h1, h2, by rw [h2]; simp⟩

/-- Closed witness for `c6_constructor_failure_no_server`. -/
theorem c6_constructor_failure_no_server_witness :
    loadLibrary envLinux "missing" "cdll" =
      (.error (.ioError ("Cannot find the shared library " ++
        resolveLibPath envLinux "missing" ++ "\n")), []) ∧
    (Server32.init envLinux "missing" "cdll" true (fun _ => Option.none) =
        (.error (.ioError ("Cannot find the shared library " ++
          resolveLibPath envLinux "missing" ++ "\n")), []) ∧
      launchServer envLinux "missing" "cdll" true (fun _ => Option.none) =
        (.error (.ioError ("Cannot find the shared library " ++
          resolveLibPath envLinux "missing" ++ "\n")), []) ∧
      LaunchEvent.listening ∉
        (launchServer envLinux "missing" "cdll" true (fun _ => Option.none)).2) :=
  ⟨rfl, c6_constructor_failure_no_server envLinux "missing" "cdll" true
    (fun _ => Option.none) _ _ rfl⟩

/-- C7 counterexample: with pythonnet unavailable and an existing library
file, `load` with kind `net` raises exactly the unsupported-libtype
`TypeError` — the same exception class and construction as for an invalid
kind — not a distinct runtime-unavailable failure. -/
theorem c7_runtime_unavailable_counterexample :
    (loadLibrary envLinux "lib" "net").1 =
      .error (.typeError "Invalid library type: net") ∧
    (loadLibrary envLinux "lib" "badtype").1 =
      .error (.typeError "Invalid library type: badtype") ∧
    envLinux.clrAvailable = false ∧
    envLinux.isfile (resolveLibPath envLinux "lib") = true :=
  ⟨rfl, rfl, rfl, rfl⟩

/-- C7 (amended): when kind is `net` and pythonnet is unavailable, `load`
logs a warning naming the missing runtime and then fails with the very same
`TypeError` used for an unsupported kind (`Invalid library type: net`);
the runtime-unavailable condition is reported only through the logged
warning, not through a distinct failure kind. -/
theorem c7_net_without_clr_amended (env : Env) (path : String)
    (hclr : env.clrAvailable = false)
    (hfile : env.isfile (resolveLibPath env path) = true) :
    loadLibrary env path "net" =
      (.error (.typeError ("Invalid library type: " ++ "net")),
       [.warning pythonNetMissingMsg]) ∧
    (∀ bad : String, bad ≠ "cdll" → bad ≠ "windll" → bad ≠ "oledll" →
      bad ≠ "net" →
      loadLibrary env path bad =
        (.error (.typeError ("Invalid library type: " ++ bad)), [])) := by
  constructor
  · simp [loadLibrary, hfile, hclr]
  · intro bad h1 h2 h3 h4
    simp [loadLibrary, hfile, h1, h2, h3, h4]

/-- Closed witness for `c7_net_without_clr_amended`. -/
theorem c7_net_without_clr_amended_witness :
    (envLinux.clrAvailable = false ∧
      envLinux.isfile (resolveLibPath envLinux "lib") = true) ∧
    (loadLibrary envLinux "lib" "net" =
        (.error (.typeError ("Invalid library type: " ++ "net")),
         [.warning pythonNetMissingMsg]) ∧
      (∀ bad : String, bad ≠ "cdll" → bad ≠ "windll" → bad ≠ "oledll" →
        bad ≠ "net" →
        loadLibrary envLinux "lib" bad =
          (.error (.typeError ("Invalid library type: " ++ bad)), []))) :=
  ⟨⟨rfl, rfl⟩, c7_net_without_clr_amended envLinux "lib" rfl rfl⟩

/-- Helper: whenever `check_dot_net_config` reports a successful repair
(status 1), its message ends with the retry instruction. -/
theorem check_config_status_one {env : Env} {pyExe : String}
    (h : (check_dot_net_config env pyExe).status = 1) :
    ∃ pre, (check_dot_net_config env pyExe).msg = pre ++ tryAgainMsg := by
  simp only [check_dot_net_config] at h ⊢
  rcases hc : env.configFile (configPath pyExe) with _ | cf
  · try rw [hc] at h
    exact ⟨_, rfl⟩
  · try rw [hc] at h
    cases cf with
    | invalidXml => simp at h
    | wrongRoot tag => simp at h
    | noPolicy => exact ⟨_, rfl⟩
    | policy b =>
        cases b with
        | false => simp at h
        | true => simp at h

/-- C8: on the known "Mixed mode assembly" `FileLoadException`, `load`
invokes the config check on the file adjacent to the hosting executable
exactly once, attempts the assembly load exactly once (no automatic retry
within the call), any config write targets `sys.executable + ".config"`,
the call always fails, and when the repair was performed (status 1) the
failure message carries the instruction to try again. -/
theorem c8_mixed_mode_one_shot (env : Env) (path m : String)
    (hfile : env.isfile (resolveLibPath env path) = true)
    (hclr : env.clrAvailable = true)
    (hasm : env.loadAssembly (resolveLibPath env path) = .fileLoadException m)
    (hmm : strContains m "Mixed mode assembly" = true) :
    (∃ msg, (loadLibrary env path "net").1 = .error (.ioError msg)) ∧
    (loadLibrary env path "net").2.countP isCheckConfigEv = 1 ∧
    (loadLibrary env path "net").2.countP isAssemblyLoadEv = 1 ∧
    (∀ (cp : String) (c : ConfigFile),
      Event.configWrite cp c ∈ (loadLibrary env path "net").2 →
      cp = configPath env.sysExecutable) ∧
    ((check_dot_net_config env env.sysExecutable).status = 1 →
      ∃ pre, (loadLibrary env path "net").1 =
        .error (.ioError (pre ++ tryAgainMsg))) := by
  have hrw : loadLibrary env path "net" =
      mixedModeOutcome env (resolveLibPath env path) m := by
    simp [loadLibrary, hfile, hclr, hasm]
  rw [hrw]
  unfold mixedModeOutcome
  rw [if_pos hmm]
  rcases hc : check_dot_net_config env env.sysExecutable with ⟨st, mg, wr⟩
  by_cases hst : st ≠ 0 <;>
    rcases wr with _ | c <;>
      simp_all [List.countP_cons, isCheckConfigEv, isAssemblyLoadEv]
  all_goals
    intro h1
    obtain ⟨pre, hp⟩ := @check_config_status_one env env.sysExecutable
      (by rw [hc]; exact h1)
    rw [hc] at hp
    exact ⟨pre, hp⟩

/-- Closed witness for `c8_mixed_mode_one_shot`: an environment whose CLR is
present but rejects the assembly with the mixed-mode message, and which has
no config file yet (so the repair writes one). -/
def envMixed : Env :=
  { envLinux with
      clrAvailable := true
      loadAssembly := fun _ => .fileLoadException
        "Mixed mode assembly is built against version v2.0.50727 of the runtime" }

theorem c8_mixed_mode_one_shot_witness :
    (envMixed.isfile (resolveLibPath envMixed "lib") = true ∧
      envMixed.clrAvailable = true ∧
      strContains "Mixed mode assembly is built against version v2.0.50727 of the runtime"
        "Mixed mode assembly" = true) ∧
    ((∃ msg, (loadLibrary envMixed "lib" "net").1 = .error (.ioError msg)) ∧
      (loadLibrary envMixed "lib" "net").2.countP isCheckConfigEv = 1 ∧
      (loadLibrary envMixed "lib" "net").2.countP isAssemblyLoadEv = 1 ∧
      (∀ (cp : String) (c : ConfigFile),
        Event.configWrite cp c ∈ (loadLibrary envMixed "lib" "net").2 →
        cp = configPath envMixed.sysExecutable) ∧
      ((check_dot_net_config envMixed envMixed.sysExecutable).status = 1 →
        ∃ pre, (loadLibrary envMixed "lib" "net").1 =
          .error (.ioError (pre ++ tryAgainMsg)))) :=
  ⟨⟨rfl, rfl, by decide⟩,
   c8_mixed_mode_one_shot envMixed "lib"
     "Mixed mode assembly is built against version v2.0.50727 of the runtime"
     rfl rfl rfl (by decide)⟩

end Msl
